import Mathlib

/-!
Shallow embedding of `dashboard.py` (LinkinVet veterinary-market dashboard).

The program is a Streamlit dashboard over literal constant tables.  Python
floats are modelled by exact rationals (ℚ): every literal in the source is a
short decimal, exactly representable, and every claim checked below concerns
values far from any binary-float rounding boundary, so the ℚ model and the
float computation agree on all displayed digits.  `pandas.DataFrame`s become
lists of row structures; `pandas.Series.round` / numpy rounding becomes
round-half-to-even on ℚ.
-/

namespace LinkinVet

/-- Round-half-to-even to an integer, the rounding mode of numpy/pandas
`round`. -/
def roundHalfEven (q : ℚ) : ℤ :=
  if q - (⌊q⌋ : ℚ) < 1/2 then ⌊q⌋
  else if 1/2 < q - (⌊q⌋ : ℚ) then ⌊q⌋ + 1
  else if ⌊q⌋ % 2 = 0 then ⌊q⌋ else ⌊q⌋ + 1

/-- Rounding to `n` decimal digits, half to even, as `pandas.Series.round(n)`
and Python `round(x, n)` do. -/
def roundTo (n : ℕ) (q : ℚ) : ℚ :=
  (roundHalfEven (q * 10 ^ n) : ℚ) / 10 ^ n

/-! ## Constant data store — CVMA (Canada), dashboard.py lines 37-98 -/

def CAN_REGISTERED_VETS_2024 : ℕ := 16317
def CAN_ACTIVE_VETS_2023_24 : ℕ := 15278
def CAN_ACCREDITED_FACILITIES_2023_24 : ℕ := 4328

def CAN_OUTPUT_MCAD : ℚ := 16946.8
def CAN_GDP_MCAD : ℚ := 9549.3
def CAN_EMPLOYMENT_FTE : ℕ := 81920
def CAN_TAX_FED_MCAD : ℚ := 873.1
def CAN_TAX_PROV_MCAD : ℚ := 797.3
def CAN_TAX_MUNI_MCAD : ℚ := 158.2
def CAN_OUTPUT_DIRECT_MCAD : ℚ := 10044.5
def CAN_GDP_DIRECT_MCAD : ℚ := 5567.6
def CAN_EMPLOYMENT_DIRECT_FTE : ℕ := 51660

/-- Dict `vets_active_2023_24` (CVMA Figure 1), in source order. -/
def vets_active_2023_24 : List (String × ℕ) :=
  [("Ontario (ON)", 5386),
   ("Québec (QC)", 3212),
   ("Alberta (AB)", 2099),
   ("Colombie-Britannique (BC)", 2141),
   ("Saskatchewan (SK)", 724),
   ("Nouvelle-Écosse (NS)", 495),
   ("Manitoba (MB)", 458),
   ("Nouveau-Brunswick (NB)", 167),
   ("Île-du-Prince-Édouard (PE)", 238),
   ("Terre-Neuve-et-Labrador (NL)", 158),
   ("Yukon (YK)", 34),
   ("Territoires du Nord-Ouest (NT)", 4)]

/-- Dict `facilities_2023_24` (CVMA Figure 2), in source order. -/
def facilities_2023_24 : List (String × ℕ) :=
  [("Ontario (ON)", 1760),
   ("Québec (QC)", 942),
   ("Alberta (AB)", 608),
   ("Colombie-Britannique (BC)", 688),
   ("Saskatchewan (SK)", 135),
   ("Nouvelle-Écosse (NS)", 155),
   ("Manitoba (MB)", 152),
   ("Nouveau-Brunswick (NB)", 92),
   ("Île-du-Prince-Édouard (PE)", 25),
   ("Terre-Neuve-et-Labrador (NL)", 31),
   ("Yukon (YK)", 14),
   ("Territoires du Nord-Ouest (NT)", 4)]

/-- One row of the merged Canada table `df_ca`: jurisdiction, the two
official columns, and the derived ratio column added at line 96-98. -/
structure CaRow where
  juris : String
  vets : ℕ
  facs : ℕ
  ratio : ℚ
deriving Repr, DecidableEq

/-- Table `df_ca`: the left-merge of the two dicts on the jurisdiction key,
followed by the derived ratio column `vets / facs` (lines 87-98).  The merge
keys coincide in both dicts (proved in `df_ca_lookup_total` below), so the
NaN case of a pandas left merge never arises and `filterMap` drops nothing. -/
def df_ca : List CaRow :=
  vets_active_2023_24.filterMap fun p =>
    (facilities_2023_24.lookup p.1).map fun f =>
      { juris := p.1, vets := p.2, facs := f, ratio := (p.2 : ℚ) / (f : ℚ) }

/-! ## Constant data store — OMVQ (Québec), dashboard.py lines 103-131 -/

def QC_OMVQ_MEMBERS_TOTAL : ℕ := 2804
def QC_OMVQ_ACTIVE_STATUS_N : ℕ := 2381
def QC_OMVQ_FEMALE_N : ℕ := 2025
def QC_OMVQ_MALE_N : ℕ := 779

/-- One row of `qc_practice_main`: the practice label, the official
headcount (`Effectif`), and the computed share column `Part (%)`. -/
structure QcRow where
  pratique : String
  effectif : ℕ
  part : ℚ
deriving Repr, DecidableEq

/-- The eleven literal label/headcount rows of `qc_practice_main`,
in source order (lines 110-122). -/
def qc_practice_base : List (String × ℕ) :=
  [("Animaux de compagnie", 1674),
   ("Grands animaux", 305),
   ("Santé publique", 172),
   ("Services-conseils", 149),
   ("Équins", 94),
   ("Enseignement", 95),
   ("Administration", 76),
   ("Petits ruminants", 0),
   ("Grandes populations animales", 42),
   ("Faune et zoos", 15),
   ("Animaux de bassecour", 1)]

/-- Table `qc_practice_main` with the `Part (%)` column of line 123:
`(Effectif / QC_OMVQ_MEMBERS_TOTAL * 100).round(1)`. -/
def qc_practice_main : List QcRow :=
  qc_practice_base.map fun p =>
    { pratique := p.1, effectif := p.2,
      part := roundTo 1 ((p.2 : ℚ) / (QC_OMVQ_MEMBERS_TOTAL : ℚ) * 100) }

/-- Sum of the `Part (%)` column of `qc_practice_main`. -/
def qc_share_sum : ℚ := (qc_practice_main.map (·.part)).sum

/-! ## Scenario estimator, dashboard.py lines 294-300 -/

/-- Line 295: `solo_facilities = facs * (solo_share / 100.0)`. -/
def solo_facilities (facs solo_share : ℚ) : ℚ := facs * (solo_share / 100)

/-- Line 296: `multi_facilities = facs - solo_facilities`. -/
def multi_facilities (facs solo_share : ℚ) : ℚ :=
  facs - solo_facilities facs solo_share

/-- Line 299: `solo_vets_est = solo_facilities * 1.0`
(explicit hypothesis: one active vet per solo facility). -/
def solo_vets_est (facs solo_share : ℚ) : ℚ := solo_facilities facs solo_share * 1

/-- Line 300: `multi_vets_est = max(vets - solo_vets_est, 0)`. -/
def multi_vets_est (vets facs solo_share : ℚ) : ℚ :=
  max (vets - solo_vets_est facs solo_share) 0

/-- The slider of line 294: `min_value=0, max_value=80, step=5`,
so the reachable values are 0, 5, ..., 80. -/
def slider_values : List ℕ := (List.range 17).map (· * 5)

/-! ## Render-pass model, dashboard.py lines 136-310

Each `with tab_...:` block is modelled as a function from the shared
module-level tables (the only state a panel could conceivably touch) to the
panel's rendered output together with the state it leaves behind.  The source
only ever reads the tables — `sort_values` returns a fresh DataFrame — so
each render function returns its input state unchanged; the theorems below
make that an explicit, checkable fact of the embedding. -/

/-- The shared module-level tables that every panel reads. -/
structure DashState where
  ca : List CaRow
  qc : List QcRow
deriving Repr, DecidableEq

/-- The tables as defined at module load. -/
def init_state : DashState := { ca := df_ca, qc := qc_practice_main }

/-- Model of `DataFrame.sort_values(col, ascending=False)`: a NEW list sorted
descending on the key; the input list is untouched (pandas `inplace=False`,
the source's only usage). -/
def sort_values_desc {α : Type} (key : α → ℚ) (t : List α) : List α :=
  t.mergeSort fun a b => decide (key b ≤ key a)

/-- Rendered output of the Canada tab (lines 146-200): four metric values,
the tax-total metric of line 160, the three descending-sorted charts and the
displayed table. -/
structure CanadaOutput where
  registered : ℕ
  active : ℕ
  accredited : ℕ
  ratio_metric : ℚ
  tax_total : ℚ
  chart_vets : List CaRow
  chart_facs : List CaRow
  chart_ratio : List CaRow
  table : List CaRow
deriving Repr, DecidableEq

/-- Render of the Canada tab: pure read of the state plus sorted copies. -/
def render_canada (st : DashState) : CanadaOutput × DashState :=
  ({ registered := CAN_REGISTERED_VETS_2024,
     active := CAN_ACTIVE_VETS_2023_24,
     accredited := CAN_ACCREDITED_FACILITIES_2023_24,
     ratio_metric := (CAN_ACTIVE_VETS_2023_24 : ℚ) / (CAN_ACCREDITED_FACILITIES_2023_24 : ℚ),
     tax_total := CAN_TAX_FED_MCAD + CAN_TAX_PROV_MCAD + CAN_TAX_MUNI_MCAD,
     chart_vets := sort_values_desc (fun r => (r.vets : ℚ)) st.ca,
     chart_facs := sort_values_desc (fun r => (r.facs : ℚ)) st.ca,
     chart_ratio := sort_values_desc (·.ratio) st.ca,
     table := sort_values_desc (fun r => (r.vets : ℚ)) st.ca }, st)

/-- Rendered output of the Québec tab (lines 205-262): the four metrics, the
descending-sorted practice chart and the displayed table. -/
structure QuebecOutput where
  members : ℕ
  active_status : ℕ
  female : ℕ
  male : ℕ
  chart_eff : List QcRow
  table : List QcRow
deriving Repr, DecidableEq

/-- Render of the Québec tab: pure read of the state plus sorted copies. -/
def render_quebec (st : DashState) : QuebecOutput × DashState :=
  ({ members := QC_OMVQ_MEMBERS_TOTAL,
     active_status := QC_OMVQ_ACTIVE_STATUS_N,
     female := QC_OMVQ_FEMALE_N,
     male := QC_OMVQ_MALE_N,
     chart_eff := sort_values_desc (fun r => (r.effectif : ℚ)) st.qc,
     table := sort_values_desc (fun r => (r.effectif : ℚ)) st.qc }, st)

/-- Rendered output of the Scenario tab (lines 282-305): the selected row's
official values and the three scenario metrics. -/
structure ScenarioOutput where
  vets : ℚ
  facs : ℚ
  ratio : ℚ
  solo_facilities_out : ℚ
  solo_vets_out : ℚ
  multi_vets_out : ℚ
deriving Repr, DecidableEq

/-- Render of the Scenario tab: selects the row for the chosen jurisdiction
(line 283) and recomputes the estimator outputs from scratch on every call;
`none` models the unreachable case of a jurisdiction absent from `df_ca`
(the selectbox only offers keys of `df_ca`). -/
def render_scenario (juris : String) (solo_share : ℚ) (st : DashState) :
    Option ScenarioOutput × DashState :=
  ((st.ca.find? fun r => r.juris == juris).map fun row =>
    { vets := (row.vets : ℚ), facs := (row.facs : ℚ), ratio := row.ratio,
      solo_facilities_out := solo_facilities (row.facs : ℚ) solo_share,
      solo_vets_out := solo_vets_est (row.facs : ℚ) solo_share,
      multi_vets_out := multi_vets_est (row.vets : ℚ) (row.facs : ℚ) solo_share },
   st)

/-- One full render pass in tab order, threading the shared state through the
three data-bearing panels (the Sources tab renders literal text only). -/
def render_all (juris : String) (solo_share : ℚ) (st : DashState) :
    (CanadaOutput × QuebecOutput × Option ScenarioOutput) × DashState :=
  let co := render_canada st
  let qo := render_quebec co.2
  let so := render_scenario juris solo_share qo.2
  ((co.1, qo.1, so.1), so.2)


/-! ## Helper lemmas -/

/-- Every key of the vets dict is found in the facilities dict, so the merge
behind `df_ca` is total and the left-merge NaN case never arises. -/
theorem df_ca_lookup_total :
    ∀ p ∈ vets_active_2023_24, (facilities_2023_24.lookup p.1).isSome := by
  decide

/-- A descending sort is a permutation of its input table. -/
theorem sort_values_desc_perm {α : Type} (key : α → ℚ) (t : List α) :
    List.Perm (sort_values_desc key t) t :=
  List.mergeSort_perm t _

/-- Evaluation rule for `roundHalfEven` away from ties: any rational strictly
between `k - 1/2` and `k + 1/2` rounds to `k`. -/
theorem roundHalfEven_eq_of (q : ℚ) (k : ℤ)
    (h1 : (k : ℚ) - 1/2 < q) (h2 : q < (k : ℚ) + 1/2) :
    roundHalfEven q = k := by
  unfold roundHalfEven
  rcases le_or_lt (k : ℚ) q with hk | hk
  · have hf : ⌊q⌋ = k := by
      rw [Int.floor_eq_iff]
      constructor
      · exact hk
      · linarith
    rw [hf, if_pos (by linarith)]
  · have hf : ⌊q⌋ = k - 1 := by
      rw [Int.floor_eq_iff]
      push_cast
      constructor <;> linarith
    rw [hf, if_neg (by push_cast; linarith), if_pos (by push_cast; linarith)]
    ring

/-- Evaluation rule for `roundTo` away from ties. -/
theorem roundTo_eq_of (n : ℕ) (q : ℚ) (k : ℤ)
    (h1 : (k : ℚ) - 1/2 < q * 10 ^ n) (h2 : q * 10 ^ n < (k : ℚ) + 1/2) :
    roundTo n q = (k : ℚ) / 10 ^ n := by
  unfold roundTo
  rw [roundHalfEven_eq_of _ k h1 h2]

/-- The table `df_ca` written out row by row. -/
theorem df_ca_eq :
    df_ca =
      [⟨"Ontario (ON)", 5386, 1760, ((5386 : ℕ) : ℚ) / ((1760 : ℕ) : ℚ)⟩,
       ⟨"Québec (QC)", 3212, 942, ((3212 : ℕ) : ℚ) / ((942 : ℕ) : ℚ)⟩,
       ⟨"Alberta (AB)", 2099, 608, ((2099 : ℕ) : ℚ) / ((608 : ℕ) : ℚ)⟩,
       ⟨"Colombie-Britannique (BC)", 2141, 688, ((2141 : ℕ) : ℚ) / ((688 : ℕ) : ℚ)⟩,
       ⟨"Saskatchewan (SK)", 724, 135, ((724 : ℕ) : ℚ) / ((135 : ℕ) : ℚ)⟩,
       ⟨"Nouvelle-Écosse (NS)", 495, 155, ((495 : ℕ) : ℚ) / ((155 : ℕ) : ℚ)⟩,
       ⟨"Manitoba (MB)", 458, 152, ((458 : ℕ) : ℚ) / ((152 : ℕ) : ℚ)⟩,
       ⟨"Nouveau-Brunswick (NB)", 167, 92, ((167 : ℕ) : ℚ) / ((92 : ℕ) : ℚ)⟩,
       ⟨"Île-du-Prince-Édouard (PE)", 238, 25, ((238 : ℕ) : ℚ) / ((25 : ℕ) : ℚ)⟩,
       ⟨"Terre-Neuve-et-Labrador (NL)", 158, 31, ((158 : ℕ) : ℚ) / ((31 : ℕ) : ℚ)⟩,
       ⟨"Yukon (YK)", 34, 14, ((34 : ℕ) : ℚ) / ((14 : ℕ) : ℚ)⟩,
       ⟨"Territoires du Nord-Ouest (NT)", 4, 4, ((4 : ℕ) : ℚ) / ((4 : ℕ) : ℚ)⟩] := by
  rfl

/-- The Québec row of `df_ca`. -/
theorem quebec_row_mem :
    (⟨"Québec (QC)", 3212, 942, ((3212 : ℕ) : ℚ) / ((942 : ℕ) : ℚ)⟩ : CaRow) ∈ df_ca := by
  rw [df_ca_eq]
  exact List.mem_cons_of_mem _ (List.mem_cons_self _ _)

/-- The table `qc_practice_main` written out row by row. -/
theorem qc_practice_main_eq :
    qc_practice_main =
      [⟨"Animaux de compagnie", 1674, roundTo 1 (((1674 : ℕ) : ℚ) / ((2804 : ℕ) : ℚ) * 100)⟩,
       ⟨"Grands animaux", 305, roundTo 1 (((305 : ℕ) : ℚ) / ((2804 : ℕ) : ℚ) * 100)⟩,
       ⟨"Santé publique", 172, roundTo 1 (((172 : ℕ) : ℚ) / ((2804 : ℕ) : ℚ) * 100)⟩,
       ⟨"Services-conseils", 149, roundTo 1 (((149 : ℕ) : ℚ) / ((2804 : ℕ) : ℚ) * 100)⟩,
       ⟨"Équins", 94, roundTo 1 (((94 : ℕ) : ℚ) / ((2804 : ℕ) : ℚ) * 100)⟩,
       ⟨"Enseignement", 95, roundTo 1 (((95 : ℕ) : ℚ) / ((2804 : ℕ) : ℚ) * 100)⟩,
       ⟨"Administration", 76, roundTo 1 (((76 : ℕ) : ℚ) / ((2804 : ℕ) : ℚ) * 100)⟩,
       ⟨"Petits ruminants", 0, roundTo 1 (((0 : ℕ) : ℚ) / ((2804 : ℕ) : ℚ) * 100)⟩,
       ⟨"Grandes populations animales", 42, roundTo 1 (((42 : ℕ) : ℚ) / ((2804 : ℕ) : ℚ) * 100)⟩,
       ⟨"Faune et zoos", 15, roundTo 1 (((15 : ℕ) : ℚ) / ((2804 : ℕ) : ℚ) * 100)⟩,
       ⟨"Animaux de bassecour", 1, roundTo 1 (((1 : ℕ) : ℚ) / ((2804 : ℕ) : ℚ) * 100)⟩] := by
  rfl

/-- The `Part (%)` column, evaluated: 59.7, 10.9, 6.1, 5.3, 3.4, 3.4, 2.7,
0.0, 1.5, 0.5, 0.0. -/
theorem qc_parts_eq :
    qc_practice_main.map (·.part) =
      [597/10, 109/10, 61/10, 53/10, 17/5, 17/5, 27/10, 0, 3/2, 1/2, 0] := by
  rw [qc_practice_main_eq]
  simp only [List.map]
  rw [roundTo_eq_of 1 _ 597 (by norm_num) (by norm_num),
      roundTo_eq_of 1 _ 109 (by norm_num) (by norm_num),
      roundTo_eq_of 1 _ 61 (by norm_num) (by norm_num),
      roundTo_eq_of 1 _ 53 (by norm_num) (by norm_num),
      roundTo_eq_of 1 _ 34 (by norm_num) (by norm_num),
      roundTo_eq_of 1 _ 34 (by norm_num) (by norm_num),
      roundTo_eq_of 1 _ 27 (by norm_num) (by norm_num),
      roundTo_eq_of 1 _ 0 (by norm_num) (by norm_num),
      roundTo_eq_of 1 _ 15 (by norm_num) (by norm_num),
      roundTo_eq_of 1 _ 5 (by norm_num) (by norm_num),
      roundTo_eq_of 1 _ 0 (by norm_num) (by norm_num)]
  norm_num

/-- The share sum evaluates to 93.5. -/
theorem qc_share_sum_eq : qc_share_sum = 187/2 := by
  unfold qc_share_sum
  rw [qc_parts_eq]
  norm_num

/-- Scenario positivity for a jurisdiction row, reduced to an integer bound:
if `facs * s < vets * 100` then the solo estimate stays below the active
count and the clamp in `multi_vets_est` does not fire. -/
theorem scenario_pos (v f s : ℕ) (h : f * s < v * 100) :
    solo_vets_est (f : ℚ) (s : ℚ) < (v : ℚ) ∧
    0 < multi_vets_est (v : ℚ) (f : ℚ) (s : ℚ) ∧
    multi_vets_est (v : ℚ) (f : ℚ) (s : ℚ)
      = (v : ℚ) - solo_vets_est (f : ℚ) (s : ℚ) := by
  have hq : (f : ℚ) * (s : ℚ) < (v : ℚ) * 100 := by exact_mod_cast h
  have h1 : solo_vets_est (f : ℚ) (s : ℚ) < (v : ℚ) := by
    unfold solo_vets_est solo_facilities
    rw [mul_one, ← mul_div_assoc, div_lt_iff₀ (by norm_num : (0:ℚ) < 100)]
    exact hq
  refine ⟨h1, ?_, ?_⟩
  · unfold multi_vets_est
    rw [max_eq_left (by linarith)]
    linarith
  · unfold multi_vets_est
    rw [max_eq_left (by linarith)]

/-! ## Claim theorems -/

/-- C1: on inputs with `active_vets ≥ 0`, `facilities ≥ 0` and
`solo_share_pct ∈ [0, 100]`, the scenario estimator returns
`solo_facilities = facilities * solo_share_pct / 100`,
`solo_vets = solo_facilities` and `multi_vets = max (active_vets - solo_vets) 0`. -/
theorem scenario_estimator_spec (a f p : ℚ)
    (_ha : 0 ≤ a) (_hf : 0 ≤ f) (_hp0 : 0 ≤ p) (_hp1 : p ≤ 100) :
    solo_facilities f p = f * p / 100 ∧
    solo_vets_est f p = solo_facilities f p ∧
    multi_vets_est a f p = max (a - solo_vets_est f p) 0 := by
  refine ⟨?_, ?_, rfl⟩
  · unfold solo_facilities
    ring
  · unfold solo_vets_est
    exact mul_one _

/-- Witness for C1, at the Québec row (active = 3212, facilities = 942) with
share 20%: the estimator returns 188.4, 188.4 and 3023.6. -/
theorem scenario_estimator_spec_witness :
    solo_facilities 942 20 = 188.4 ∧ solo_vets_est 942 20 = 188.4 ∧
    multi_vets_est 3212 942 20 = 3023.6 := by
  obtain ⟨h1, h2, h3⟩ :=
    scenario_estimator_spec 3212 942 20 (by norm_num) (by norm_num) (by norm_num) (by norm_num)
  refine ⟨?_, ?_, ?_⟩
  · rw [h1]; norm_num
  · rw [h2, h1]; norm_num
  · rw [h3, h2, h1]; norm_num

/-- C2 as stated is false: with `facilities = 0` (allowed by the claim's
`facilities ≥ 0`) `multi_vets` is constant in the share, so it is not strictly
decreasing.  Concretely at `active_vets = 1`, `facilities = 0`, shares 0 < 50
both outputs equal 1. -/
theorem multi_vets_decreasing_counterexample :
    ¬ (∀ a f : ℚ, 0 ≤ a → 0 ≤ f →
        ∀ p1 p2 : ℚ, 0 ≤ p1 → p1 ≤ 100 → 0 ≤ p2 → p2 ≤ 100 → p1 < p2 →
          0 < multi_vets_est a f p1 →
          multi_vets_est a f p2 < multi_vets_est a f p1) := by
  intro h
  have h2 := h 1 0 (by norm_num) le_rfl 0 50 le_rfl (by norm_num) (by norm_num)
    (by norm_num) (by norm_num)
    (by norm_num [multi_vets_est, solo_vets_est, solo_facilities])
  norm_num [multi_vets_est, solo_vets_est, solo_facilities] at h2

/-- C2 amended: for `facilities > 0` (as holds for every jurisdiction in the
data), `multi_vets` is strictly decreasing in the share until the clamp at 0:
if `p1 < p2` in `[0, 100]` and `multi_vets p1 > 0` then
`multi_vets p2 < multi_vets p1`. -/
theorem multi_vets_strict_anti (a f p1 p2 : ℚ) (hf : 0 < f)
    (_hp1 : 0 ≤ p1) (_hp2 : p2 ≤ 100) (hlt : p1 < p2)
    (hpos : 0 < multi_vets_est a f p1) :
    multi_vets_est a f p2 < multi_vets_est a f p1 := by
  have hs : solo_vets_est f p1 < solo_vets_est f p2 := by
    unfold solo_vets_est solo_facilities
    rw [mul_one, mul_one]
    exact mul_lt_mul_of_pos_left (by linarith) hf
  have hpos1 : 0 < a - solo_vets_est f p1 := by
    by_contra hle
    push_neg at hle
    unfold multi_vets_est at hpos
    rw [max_eq_right hle] at hpos
    exact lt_irrefl 0 hpos
  have e1 : multi_vets_est a f p1 = a - solo_vets_est f p1 := by
    unfold multi_vets_est
    exact max_eq_left (le_of_lt hpos1)
  rw [e1]
  unfold multi_vets_est
  exact max_lt (by linarith) hpos1

/-- Witness for the amended C2, at the Québec row with shares 20 < 40. -/
theorem multi_vets_strict_anti_witness :
    (0 : ℚ) < multi_vets_est 3212 942 20 ∧
    multi_vets_est 3212 942 40 < multi_vets_est 3212 942 20 :=
  ⟨by norm_num [multi_vets_est, solo_vets_est, solo_facilities],
   multi_vets_strict_anti 3212 942 20 40 (by norm_num) (by norm_num) (by norm_num)
     (by norm_num) (by norm_num [multi_vets_est, solo_vets_est, solo_facilities])⟩

/-- C3 as stated is false: the eleven practice-type shares do not sum to
100 ± 0.5 percentage points — their sum is 93.5. -/
theorem practice_share_sum_counterexample :
    ¬ (99.5 ≤ qc_share_sum ∧ qc_share_sum ≤ 100.5) := by
  rw [qc_share_sum_eq]
  norm_num

/-- C3 amended: the eleven practice-type shares sum to 93.5%, not ≈100%;
the eleven listed headcounts total 2623 while each share is taken over all
2804 members, and 2623/2804 of 100 is below 94. -/
theorem practice_share_sum_value :
    qc_share_sum = 93.5 ∧ (qc_practice_base.map (·.2)).sum = 2623 ∧
    ((2623 : ℚ) / 2804) * 100 < 94 := by
  refine ⟨?_, by decide, by norm_num⟩
  rw [qc_share_sum_eq]
  norm_num

/-- C4: every row of `qc_practice_main` carries the share
`round(headcount / total_members * 100, 1)` with the fixed scalar
`total_members = 2804`; the companion-animals row (headcount 1674) has
share 59.7. -/
theorem practice_share_formula :
    QC_OMVQ_MEMBERS_TOTAL = 2804 ∧
    (∀ r ∈ qc_practice_main,
      r.part = roundTo 1 ((r.effectif : ℚ) / (QC_OMVQ_MEMBERS_TOTAL : ℚ) * 100)) ∧
    (⟨"Animaux de compagnie", 1674, 59.7⟩ : QcRow) ∈ qc_practice_main := by
  refine ⟨rfl, ?_, ?_⟩
  · intro r hr
    unfold qc_practice_main at hr
    rw [List.mem_map] at hr
    obtain ⟨p, hp, rfl⟩ := hr
    rfl
  · have hpart : roundTo 1 (((1674 : ℕ) : ℚ) / ((2804 : ℕ) : ℚ) * 100) = 59.7 := by
      rw [roundTo_eq_of 1 _ 597 (by norm_num) (by norm_num)]
      norm_num
    rw [qc_practice_main_eq, hpart]
    exact List.mem_cons_self _ _

/-- Witness for C4, at the companion-animals row. -/
theorem practice_share_formula_witness :
    (⟨"Animaux de compagnie", 1674, 59.7⟩ : QcRow) ∈ qc_practice_main ∧
    (⟨"Animaux de compagnie", 1674, 59.7⟩ : QcRow).part
      = roundTo 1 (((⟨"Animaux de compagnie", 1674, 59.7⟩ : QcRow).effectif : ℚ)
          / (QC_OMVQ_MEMBERS_TOTAL : ℚ) * 100) :=
  ⟨practice_share_formula.2.2,
   practice_share_formula.2.1 _ practice_share_formula.2.2⟩

/-- C5: `df_ca` has 12 jurisdiction rows, each row's derived ratio column is
`active_vets / accredited_facilities`, and the Québec row's ratio is
3212/942, which rounds to 3.41 at two decimal places. -/
theorem ca_ratio_formula :
    df_ca.length = 12 ∧
    (∀ r ∈ df_ca, r.ratio = (r.vets : ℚ) / (r.facs : ℚ)) ∧
    (∀ r ∈ df_ca, r.juris = "Québec (QC)" →
      r.ratio = 3212 / 942 ∧ roundTo 2 r.ratio = 3.41) := by
  refine ⟨by decide, ?_, ?_⟩
  · intro r hr
    unfold df_ca at hr
    rw [List.mem_filterMap] at hr
    obtain ⟨p, hp, he⟩ := hr
    rw [Option.map_eq_some'] at he
    obtain ⟨f, hf, rfl⟩ := he
    rfl
  · intro r hr hq
    rw [df_ca_eq] at hr
    fin_cases hr <;> simp_all
    rw [roundTo_eq_of 2 _ 341 (by norm_num) (by norm_num)]
    norm_num

/-- Witness for C5, at the Québec row. -/
theorem ca_ratio_formula_witness :
    (⟨"Québec (QC)", 3212, 942, ((3212 : ℕ) : ℚ) / ((942 : ℕ) : ℚ)⟩ : CaRow) ∈ df_ca ∧
    (⟨"Québec (QC)", 3212, 942, ((3212 : ℕ) : ℚ) / ((942 : ℕ) : ℚ)⟩ : CaRow).ratio
        = 3212 / 942 ∧
    roundTo 2 (⟨"Québec (QC)", 3212, 942,
        ((3212 : ℕ) : ℚ) / ((942 : ℕ) : ℚ)⟩ : CaRow).ratio = 3.41 :=
  ⟨quebec_row_mem,
   (ca_ratio_formula.2.2 _ quebec_row_mem rfl).1,
   (ca_ratio_formula.2.2 _ quebec_row_mem rfl).2⟩

/-- C6: the displayed Canada total tax revenue is the sum of the three tax
components, 873.1 + 797.3 + 158.2 = 1828.6 (million CAD), whatever state the
Canada tab renders from. -/
theorem tax_total_sum :
    CAN_TAX_FED_MCAD + CAN_TAX_PROV_MCAD + CAN_TAX_MUNI_MCAD = 1828.6 ∧
    CAN_TAX_FED_MCAD = 873.1 ∧ CAN_TAX_PROV_MCAD = 797.3 ∧
    CAN_TAX_MUNI_MCAD = 158.2 ∧
    ∀ st : DashState, (render_canada st).1.tax_total = 1828.6 := by
  have hsum : CAN_TAX_FED_MCAD + CAN_TAX_PROV_MCAD + CAN_TAX_MUNI_MCAD = 1828.6 := by
    unfold CAN_TAX_FED_MCAD CAN_TAX_PROV_MCAD CAN_TAX_MUNI_MCAD
    norm_num
  exact ⟨hsum, rfl, rfl, rfl, fun st => hsum⟩

/-- C7: all 12 facilities entries are at least 4, hence strictly positive,
so every `df_ca` ratio divides by a nonzero denominator. -/
theorem facilities_nonzero :
    facilities_2023_24.length = 12 ∧
    (∀ p ∈ facilities_2023_24, 4 ≤ p.2) ∧
    (∀ r ∈ df_ca, 0 < r.facs ∧ ((r.facs : ℚ) ≠ 0)) := by
  have hnat : ∀ r ∈ df_ca, 0 < r.facs := by decide
  refine ⟨by decide, by decide, fun r hr => ⟨hnat r hr, ?_⟩⟩
  exact_mod_cast Nat.pos_iff_ne_zero.mp (hnat r hr)

/-- Witness for C7, at the smallest entry (Northwest Territories, 4). -/
theorem facilities_nonzero_witness :
    ("Territoires du Nord-Ouest (NT)", 4) ∈ facilities_2023_24 ∧
    4 ≤ (("Territoires du Nord-Ouest (NT)", 4) : String × ℕ).2 :=
  ⟨by decide, facilities_nonzero.2.1 _ (by decide)⟩

/-- C8: a full render pass is deterministic and idempotent — it returns its
input state unchanged, and rendering again from the state a pass leaves
behind reproduces the pass bit for bit; the scenario panel recomputes its
output purely from the selected jurisdiction, the slider value and the
shared tables on every call. -/
theorem render_pure_idempotent (j : String) (p : ℚ) (st : DashState) :
    (render_all j p st).2 = st ∧
    render_all j p ((render_all j p st).2) = render_all j p st ∧
    render_scenario j p ((render_scenario j p st).2) = render_scenario j p st :=
  ⟨rfl, rfl, rfl⟩

/-- C9: no panel's render step changes the shared tables — each returns the
state it was given, the sorted charts and tables are fresh permutations of
the shared tables, and a full pass from the module-load state hands back the
module-load state. -/
theorem panels_preserve_tables (j : String) (p : ℚ) (st : DashState) :
    (render_canada st).2 = st ∧
    (render_quebec st).2 = st ∧
    (render_scenario j p st).2 = st ∧
    (render_all j p init_state).2 = init_state ∧
    List.Perm ((render_canada st).1.table) st.ca ∧
    List.Perm ((render_canada st).1.chart_ratio) st.ca ∧
    List.Perm ((render_quebec st).1.table) st.qc :=
  ⟨rfl, rfl, rfl, rfl,
   sort_values_desc_perm _ st.ca,
   sort_values_desc_perm _ st.ca,
   sort_values_desc_perm _ st.qc⟩

/-- C10: for every jurisdiction row of `df_ca` and every reachable slider
value 0, 5, ..., 80, the estimated solo vets stay strictly below the row's
active vets, so the `max (·, 0)` clamp never fires and `multi_vets_est` is
strictly positive. -/
theorem clamp_never_fires :
    ∀ r ∈ df_ca, ∀ s ∈ slider_values,
      solo_vets_est (r.facs : ℚ) (s : ℚ) < (r.vets : ℚ) ∧
      0 < multi_vets_est (r.vets : ℚ) (r.facs : ℚ) (s : ℚ) ∧
      multi_vets_est (r.vets : ℚ) (r.facs : ℚ) (s : ℚ)
        = (r.vets : ℚ) - solo_vets_est (r.facs : ℚ) (s : ℚ) := by
  have key : ∀ r ∈ df_ca, ∀ s ∈ slider_values, r.facs * s < r.vets * 100 := by decide
  intro r hr s hs
  exact scenario_pos r.vets r.facs s (key r hr s hs)

/-- Witness for C10, at the Québec row with the maximal slider value 80. -/
theorem clamp_never_fires_witness :
    0 < multi_vets_est ((3212 : ℕ) : ℚ) ((942 : ℕ) : ℚ) ((80 : ℕ) : ℚ) :=
  (clamp_never_fires (⟨"Québec (QC)", 3212, 942, ((3212 : ℕ) : ℚ) / ((942 : ℕ) : ℚ)⟩ : CaRow)
    quebec_row_mem 80 (by decide)).2.1

end LinkinVet
